import Mathlib

/-!
Shallow embedding of the file-viewer data source module
(`web/packages/gallery/components/viewer/data-source.ts`).

The module is an in-memory cache of the best-known rendering data per file,
fed by a staged asynchronous fetch pipeline (thumbnail, then original; for
live photos the original resolves its image and video components in turn).
We model:

- the `ItemData` record and the four maps of `FileViewerDataSourceState`;
- the external collaborators (DownloadManager, the browser image decoder
  used by `withDimensions`, and the Exif extractor) as an oracle `Env`
  whose fields give the outcome of each asynchronous call (`Except Unit`
  models a promise that can reject);
- each pipeline stage as a pure step function from state to state that also
  emits a trace of observable events (cache writes, refresh-callback
  invocations, pipeline starts, entry removals, Exif writes and
  notifications, metadata-extractor invocations);
- the interleaving of viewer requests, pipeline steps and forget operations
  as a small-step transition system (`Act`/`stepAct`/`runActs`), one step
  per region between asynchronous suspension points.

Callbacks are modelled by opaque tokens (`Nat`); invoking a callback is the
trace event that mentions its token.
-/

namespace DataSource

/-- File types recognised by the viewer (from the media file-type enum). -/
inductive FileType where
  | image
  | video
  | livePhoto
deriving DecidableEq, Repr

/-- Opaque token standing for a `Blob` of original image bytes. -/
abbrev Blob := Nat

/-- Opaque token standing for raw Exif tags returned by the extractor. -/
abbrev RawExifTags := Nat

/-- Opaque token standing for the parsed form of the Exif tags. -/
abbrev ParsedExif := Nat

/-- The slice of `EnteFile` the data source reads: `file.id` and
`file.metadata.fileType`. -/
structure FileMetadata where
  fileType : FileType
deriving DecidableEq, Repr

structure EnteFile where
  id : Nat
  metadata : FileMetadata
deriving DecidableEq, Repr

/-- The `ItemData` record cached per file. Optional fields model the
optional (possibly absent) TypeScript properties. -/
structure ItemData where
  fileID : Nat
  fileType : FileType
  src : Option String := none
  width : Option Nat := none
  height : Option Nat := none
  imageURL : Option String := none
  originalImageBlob : Option Blob := none
  videoURL : Option String := none
  isContentLoading : Option Bool := none
  isContentZoomable : Option Bool := none
  fetchFailed : Option Bool := none
deriving DecidableEq, Repr

/-- A `Partial<ItemData>` as passed to the `update` closure: every field
optional, without the `fileID`/`fileType` keys (the pipeline's partials
never carry them; `update` always overwrites both). -/
structure ItemDataPatch where
  src : Option String := none
  width : Option Nat := none
  height : Option Nat := none
  imageURL : Option String := none
  originalImageBlob : Option Blob := none
  videoURL : Option String := none
  isContentLoading : Option Bool := none
  isContentZoomable : Option Bool := none
  fetchFailed : Option Bool := none
deriving DecidableEq, Repr

/-- The spread `{ ...itemData, fileType, fileID }` performed by `update`. -/
def patchToItemData (p : ItemDataPatch) (fileID : Nat) (fileType : FileType) : ItemData :=
  { fileID := fileID, fileType := fileType, src := p.src, width := p.width,
    height := p.height, imageURL := p.imageURL,
    originalImageBlob := p.originalImageBlob, videoURL := p.videoURL,
    isContentLoading := p.isContentLoading,
    isContentZoomable := p.isContentZoomable, fetchFailed := p.fetchFailed }

/-- The spread `{ ...lastData }` performed by `markFailed`: the cached
record viewed as a partial (its `fileID`/`fileType` are re-imposed by
`update` with identical values, so they are dropped here). -/
def ItemData.toPatch (d : ItemData) : ItemDataPatch :=
  { src := d.src, width := d.width, height := d.height, imageURL := d.imageURL,
    originalImageBlob := d.originalImageBlob, videoURL := d.videoURL,
    isContentLoading := d.isContentLoading,
    isContentZoomable := d.isContentZoomable, fetchFailed := d.fetchFailed }

/-- The `FileInfoExif` record: `{ tags, parsed }`, both optional. -/
structure FileInfoExif where
  tags : Option RawExifTags := none
  parsed : Option ParsedExif := none
deriving DecidableEq, Repr

/-- Association map with JavaScript `Map` semantics (`set` overwrites in
place, `delete` removes, keys are returned in insertion order). -/
abbrev AMap (β : Type) := List (Nat × β)

namespace AMap

def get {β : Type} : AMap β → Nat → Option β
  | [], _ => none
  | (k, v) :: rest, k2 => if k = k2 then some v else get rest k2

def set {β : Type} : AMap β → Nat → β → AMap β
  | [], k, v => [(k, v)]
  | (k2, v2) :: rest, k, v =>
      if k2 = k then (k, v) :: rest else (k2, v2) :: set rest k v

def del {β : Type} : AMap β → Nat → AMap β
  | [], _ => []
  | (k2, v2) :: rest, k =>
      if k2 = k then del rest k else (k2, v2) :: del rest k

def keys {β : Type} (m : AMap β) : List Nat := m.map (fun kv => kv.1)

end AMap

/-- The four maps of `FileViewerDataSourceState`. -/
structure FileViewerDataSourceState where
  itemDataByFileID : AMap ItemData := []
  needsRefreshByFileID : AMap Nat := []
  fileInfoExifByFileID : AMap FileInfoExif := []
  exifObserverByFileID : AMap Nat := []
deriving DecidableEq, Repr

abbrev DSState := FileViewerDataSourceState

/-- The fresh state built by `new FileViewerDataSourceState()`; also the
result of `logoutFileViewerDataSource`. -/
def initialState : DSState := {}

/-- Observable events emitted by the operations, in program order. -/
inductive Event where
  | cacheWrite (fileID : Nat) (d : ItemData)
  | refresh (cb : Nat)
  | pipelineStart (fileID : Nat)
  | removed (fileID : Nat)
  | exifWrite (fileID : Nat) (e : FileInfoExif)
  | exifNotify (ob : Nat) (e : FileInfoExif)
  | extractExifCall (fileID : Nat)
  | parseExifCall (fileID : Nat)
deriving DecidableEq, Repr

/-- Result of a call to `DownloadManager.renderableSourceURLs`: the `url`
field is a plain string for images and videos, and the
`LivePhotoSourceURL` bundle for live photos. -/
structure LivePhotoSourceURL where
  image : Except Unit (Option String)
  video : Except Unit (Option String)
  originalImageBlob : Option Blob

inductive SourceURLValue where
  | str (url : Option String)
  | live (lp : LivePhotoSourceURL)

structure SourceURLs where
  url : SourceURLValue
  originalImageBlob : Option Blob

/-- Oracle for the external asynchronous collaborators: each field gives
the outcome of the corresponding call (`Except.error` models a rejected
promise / thrown exception). -/
structure Env where
  renderableThumbnailURL : Except Unit (Option String)
  renderableSourceURLs : Except Unit SourceURLs
  dims : String → Except Unit (Nat × Nat)
  extractRawExif : Blob → Except Unit RawExifTags
  parseExif : RawExifTags → Except Unit ParsedExif

/-- The `ensureString` utility: throws unless the value is a string. -/
def ensureString : Option String → Except Unit String
  | some s => Except.ok s
  | none => Except.error ()

/-- The `ensureString` utility applied to a `url` that may also be a
live-photo bundle. -/
def ensureStringValue : SourceURLValue → Except Unit String
  | SourceURLValue.str (some s) => Except.ok s
  | SourceURLValue.str none => Except.error ()
  | SourceURLValue.live _ => Except.error ()

/-- The unchecked `as string` cast in the video branch: a string passes
through, a non-string value is not a renderable URL (modelled as absent). -/
def SourceURLValue.asStringUnchecked : SourceURLValue → Option String
  | SourceURLValue.str u => u
  | SourceURLValue.live _ => none

/-- The `sourceURLs.url as LivePhotoSourceURL` cast followed by the first
method call on it: calling `.image()` on a string throws. -/
def SourceURLValue.asLivePhoto : SourceURLValue → Except Unit LivePhotoSourceURL
  | SourceURLValue.str _ => Except.error ()
  | SourceURLValue.live lp => Except.ok lp

/-- The `withDimensions` helper: decode the image at the URL to learn its
intrinsic width and height, resolving `{src, width, height}`. -/
def withDimensions (env : Env) (imageURL : String) : Except Unit ItemDataPatch :=
  match env.dims imageURL with
  | Except.ok wh =>
      Except.ok { src := some imageURL, width := some wh.1, height := some wh.2 }
  | Except.error e => Except.error e

/-- Lines 261–265: the thumbnail fetch and its dimension resolution (both
before the first cache write, so they form one suspension region). -/
def thumbnailResult (env : Env) : Except Unit ItemDataPatch :=
  match env.renderableThumbnailURL with
  | Except.error e => Except.error e
  | Except.ok tu =>
      match ensureString tu with
      | Except.error e => Except.error e
      | Except.ok turl => withDimensions env turl

/-- Lines 288–293: the original fetch for an image file, through the
dimension resolution, yielding the partial passed to `update`. -/
def imageOriginalResult (env : Env) : Except Unit ItemDataPatch :=
  match env.renderableSourceURLs with
  | Except.error e => Except.error e
  | Except.ok su =>
      match ensureStringValue su.url with
      | Except.error e => Except.error e
      | Except.ok imageURL =>
          match withDimensions env imageURL with
          | Except.error e => Except.error e
          | Except.ok d =>
              Except.ok { d with imageURL := some imageURL,
                                 originalImageBlob := su.originalImageBlob }

/-- Lines 298–301: the original fetch for a video file. -/
def videoOriginalResult (env : Env) : Except Unit ItemDataPatch :=
  match env.renderableSourceURLs with
  | Except.error e => Except.error e
  | Except.ok su => Except.ok { videoURL := su.url.asStringUnchecked }

/-- Lines 306–319: the original fetch for a live photo through the image
component, yielding the `imageData` partial and the bundle (whose `video`
accessor the next stage awaits). -/
def livePhotoImageResult (env : Env) :
    Except Unit (ItemDataPatch × LivePhotoSourceURL) :=
  match env.renderableSourceURLs with
  | Except.error e => Except.error e
  | Except.ok su =>
      match su.url.asLivePhoto with
      | Except.error e => Except.error e
      | Except.ok lp =>
          match lp.image with
          | Except.error e => Except.error e
          | Except.ok iu =>
              match ensureString iu with
              | Except.error e => Except.error e
              | Except.ok imageURL =>
                  match withDimensions env imageURL with
                  | Except.error e => Except.error e
                  | Except.ok d =>
                      Except.ok
                        ({ d with imageURL := some imageURL,
                                  originalImageBlob := lp.originalImageBlob }, lp)

/-- The `update` closure of `enqueueUpdates`: replace the cache entry with
`{ ...itemData, fileType, fileID }`, then invoke the registered refresh
callback, if any. -/
def update (file : EnteFile) (p : ItemDataPatch) (s : DSState) :
    DSState × List Event :=
  let d := patchToItemData p file.id file.metadata.fileType
  let s2 := { s with itemDataByFileID := AMap.set s.itemDataByFileID file.id d }
  (s2, Event.cacheWrite file.id d ::
        (match AMap.get s2.needsRefreshByFileID file.id with
         | some cb => [Event.refresh cb]
         | none => []))

/-- The `markFailed` closure: take the last best available data, delete
`isContentLoading`, add `fetchFailed: true`, and commit via `update`. -/
def markFailed (file : EnteFile) (s : DSState) : DSState × List Event :=
  let lastData :=
    match AMap.get s.itemDataByFileID file.id with
    | some d => d.toPatch
    | none => {}
  let lastData := { lastData with isContentLoading := none }
  update file { lastData with fetchFailed := some true } s

/-- Continuation state of one `enqueueUpdates` run, between cache-writing
suspension regions. -/
inductive RunPhase where
  | thumbStage
  | originalStage
  | livePhotoVideoStage (imageData : ItemDataPatch) (lp : LivePhotoSourceURL)
  | done

structure StepResult where
  state : DSState
  events : List Event
  phase : RunPhase

/-- One suspension-region step of `enqueueUpdates` (lines 242–348). -/
def runStep (env : Env) (file : EnteFile) (ph : RunPhase) (s : DSState) :
    StepResult :=
  match ph with
  | RunPhase.thumbStage =>
      match thumbnailResult env with
      | Except.error _ =>
          let r := markFailed file s
          ⟨r.1, r.2, RunPhase.done⟩
      | Except.ok td =>
          let r := update file
            { td with isContentLoading := some true,
                      isContentZoomable := some false } s
          ⟨r.1, r.2, RunPhase.originalStage⟩
  | RunPhase.originalStage =>
      match file.metadata.fileType with
      | FileType.image =>
          match imageOriginalResult env with
          | Except.error _ =>
              let r := markFailed file s
              ⟨r.1, r.2, RunPhase.done⟩
          | Except.ok d =>
              let r := update file d s
              ⟨r.1, r.2, RunPhase.done⟩
      | FileType.video =>
          match videoOriginalResult env with
          | Except.error _ =>
              let r := markFailed file s
              ⟨r.1, r.2, RunPhase.done⟩
          | Except.ok d =>
              let r := update file d s
              ⟨r.1, r.2, RunPhase.done⟩
      | FileType.livePhoto =>
          match livePhotoImageResult env with
          | Except.error _ =>
              let r := markFailed file s
              ⟨r.1, r.2, RunPhase.done⟩
          | Except.ok dlp =>
              let r := update file dlp.1 s
              ⟨r.1, r.2, RunPhase.livePhotoVideoStage dlp.1 dlp.2⟩
  | RunPhase.livePhotoVideoStage imageData lp =>
      match lp.video with
      | Except.error _ =>
          let r := markFailed file s
          ⟨r.1, r.2, RunPhase.done⟩
      | Except.ok vu =>
          let r := update file { imageData with videoURL := vu } s
          ⟨r.1, r.2, RunPhase.done⟩
  | RunPhase.done => ⟨s, [], RunPhase.done⟩

/-- An entire `enqueueUpdates` run: at most three suspension regions
(thumbnail; original; video component of a live photo). -/
def enqueueUpdates (env : Env) (file : EnteFile) (s : DSState) :
    DSState × List Event :=
  let r1 := runStep env file RunPhase.thumbStage s
  let r2 := runStep env file r1.phase r1.state
  let r3 := runStep env file r2.phase r2.state
  (r3.state, r1.events ++ r2.events ++ r3.events)

/-- The cache writes occurring in a trace, in order. -/
def cacheWrites (evs : List Event) : List ItemData :=
  evs.filterMap fun e =>
    match e with
    | Event.cacheWrite _ d => some d
    | _ => none

/-- The placeholder `{ fileID, fileType, isContentLoading: true }` inserted
by `itemDataForFile` before starting a pipeline. -/
def placeholderItemData (fileID : Nat) (fileType : FileType) : ItemData :=
  { fileID := fileID, fileType := fileType, isContentLoading := some true }

structure RequestResult where
  itemData : ItemData
  state : DSState
  started : Bool

/-- The synchronous body of `itemDataForFile` (lines 202–219): register the
callback, and if no entry exists insert the placeholder and start a
pipeline (`started = true` stands for the `void enqueueUpdates(file)`
launch). -/
def itemDataForFile (file : EnteFile) (needsRefresh : Nat) (s : DSState) :
    RequestResult :=
  let itemData := AMap.get s.itemDataByFileID file.id
  let s := { s with
    needsRefreshByFileID := AMap.set s.needsRefreshByFileID file.id needsRefresh }
  match itemData with
  | none =>
      let d := placeholderItemData file.id file.metadata.fileType
      { itemData := d,
        state := { s with itemDataByFileID := AMap.set s.itemDataByFileID file.id d },
        started := true }
  | some d => { itemData := d, state := s, started := false }

/-- A request followed by its pipeline run (when one was started) running
uninterrupted to completion. -/
def requestAndRun (env : Env) (file : EnteFile) (cb : Nat) (s : DSState) :
    ItemData × DSState × List Event :=
  let r := itemDataForFile file cb s
  if r.started then
    let e := enqueueUpdates env file r.state
    (r.itemData, e.1, e.2)
  else (r.itemData, r.state, [])

/-- Lines 227–231: delete the entry if its `fetchFailed` is truthy. -/
def forgetFailedItemDataForFileID (fileID : Nat) (s : DSState) :
    DSState × List Event :=
  match AMap.get s.itemDataByFileID fileID with
  | some d =>
      if d.fetchFailed = some true then
        ({ s with itemDataByFileID := AMap.del s.itemDataByFileID fileID },
         [Event.removed fileID])
      else (s, [])
  | none => (s, [])

/-- Lines 239–240: apply `forgetFailedItemDataForFileID` to a snapshot of
the keys. -/
def forgetFailedItems (s : DSState) : DSState × List Event :=
  (AMap.keys s.itemDataByFileID).foldl
    (fun acc fid =>
      let r := forgetFailedItemDataForFileID fid acc.1
      (r.1, acc.2 ++ r.2))
    (s, [])

/-- Lines 390–400: return the cached Exif synchronously if present,
otherwise register the observer. -/
def fileInfoExifForFile (file : EnteFile) (observer : Nat) (s : DSState) :
    Option FileInfoExif × DSState :=
  match AMap.get s.fileInfoExifByFileID file.id with
  | some exifData => (some exifData, s)
  | none =>
      (none,
       { s with exifObserverByFileID :=
           AMap.set s.exifObserverByFileID file.id observer })

def createPlaceholderFileInfoExif : FileInfoExif :=
  { tags := none, parsed := none }

/-- The `updateNotifyAndReturn` closure: commit to the Exif cache, then
invoke the registered observer, if any. -/
def updateNotifyAndReturn (fileID : Nat) (exifData : FileInfoExif) (s : DSState) :
    DSState × List Event :=
  let s2 := { s with
    fileInfoExifByFileID := AMap.set s.fileInfoExifByFileID fileID exifData }
  (s2, Event.exifWrite fileID exifData ::
        (match AMap.get s2.exifObserverByFileID fileID with
         | some ob => [Event.exifNotify ob exifData]
         | none => []))

/-- Lines 417–448: `updateFileInfoExifIfNeeded`. Returns the committed
Exif value (or `none` on the early-return paths), the new state, and the
trace, which records every invocation of the metadata extractor. -/
def updateFileInfoExifIfNeeded (env : Env) (itemData : ItemData) (s : DSState) :
    Option FileInfoExif × DSState × List Event :=
  let fileID := itemData.fileID
  if (AMap.get s.fileInfoExifByFileID fileID).isSome then (none, s, [])
  else if itemData.fileType = FileType.video then
    let r := updateNotifyAndReturn fileID createPlaceholderFileInfoExif s
    (some createPlaceholderFileInfoExif, r.1, r.2)
  else
    match itemData.originalImageBlob with
    | none => (none, s, [])
    | some blob =>
        match env.extractRawExif blob with
        | Except.error _ =>
            let r := updateNotifyAndReturn fileID createPlaceholderFileInfoExif s
            (some createPlaceholderFileInfoExif, r.1,
             Event.extractExifCall fileID :: r.2)
        | Except.ok tags =>
            match env.parseExif tags with
            | Except.error _ =>
                let r := updateNotifyAndReturn fileID createPlaceholderFileInfoExif s
                (some createPlaceholderFileInfoExif, r.1,
                 Event.extractExifCall fileID :: Event.parseExifCall fileID :: r.2)
            | Except.ok parsed =>
                let d : FileInfoExif := { tags := some tags, parsed := some parsed }
                let r := updateNotifyAndReturn fileID d s
                (some d, r.1,
                 Event.extractExifCall fileID :: Event.parseExifCall fileID :: r.2)

/-- Lines 458–461: clear the cached Exif and its observer for one file. -/
def forgetExifForItemData (fileID : Nat) (s : DSState) : DSState :=
  { s with fileInfoExifByFileID := AMap.del s.fileInfoExifByFileID fileID,
           exifObserverByFileID := AMap.del s.exifObserverByFileID fileID }

/-- Lines 466–469: clear the entire Exif cache and observer registry. -/
def forgetExif (s : DSState) : DSState :=
  { s with fileInfoExifByFileID := [], exifObserverByFileID := [] }

/-- Lines 151–153: reset all state. -/
def logoutFileViewerDataSource (_s : DSState) : DSState := initialState

/-- Interleavable actions of the whole module: a viewer request, one
pipeline suspension-region step for a file's in-flight run (the oracle may
answer differently at each suspension), and the forget operations. -/
inductive Act where
  | request (file : EnteFile) (cb : Nat)
  | advance (fileID : Nat) (env : Env)
  | forgetFailed (fileID : Nat)
  | forgetAllFailed
  | reset

/-- Whole-system state: the module state plus the continuations of the
in-flight pipeline runs. -/
structure Sys where
  st : DSState := {}
  runs : AMap (EnteFile × RunPhase) := []

def stepAct (a : Act) (sys : Sys) : Sys × List Event :=
  match a with
  | Act.request file cb =>
      let r := itemDataForFile file cb sys.st
      if r.started then
        ({ st := r.state,
           runs := AMap.set sys.runs file.id (file, RunPhase.thumbStage) },
         [Event.pipelineStart file.id])
      else ({ sys with st := r.state }, [])
  | Act.advance fid env =>
      match AMap.get sys.runs fid with
      | none => (sys, [])
      | some fp =>
          let r := runStep env fp.1 fp.2 sys.st
          ({ st := r.state, runs := AMap.set sys.runs fid (fp.1, r.phase) },
           r.events)
  | Act.forgetFailed fid =>
      let r := forgetFailedItemDataForFileID fid sys.st
      ({ sys with st := r.1 }, r.2)
  | Act.forgetAllFailed =>
      let r := forgetFailedItems sys.st
      ({ sys with st := r.1 }, r.2)
  | Act.reset =>
      ({ st := logoutFileViewerDataSource sys.st, runs := sys.runs },
       (AMap.keys sys.st.itemDataByFileID).map Event.removed)

def runActs : List Act → Sys → Sys × List Event
  | [], sys => (sys, [])
  | a :: rest, sys =>
      let r1 := stepAct a sys
      let r2 := runActs rest r1.1
      (r2.1, r1.2 ++ r2.2)

/-- An entry is present in the item-data cache. -/
def entryPresent (sys : Sys) (f : Nat) : Bool :=
  (AMap.get sys.st.itemDataByFileID f).isSome

/-! Concrete scenario instances used to exercise the model on closed
inputs. -/

def fileImage42 : EnteFile := ⟨42, ⟨FileType.image⟩⟩

/-- Oracle for the example scenario: thumbnail URL `T`, source URL `O`
with original blob `99`, every dimension resolution reporting 800×600. -/
def envC8 : Env :=
  { renderableThumbnailURL := Except.ok (some "T"),
    renderableSourceURLs := Except.ok ⟨SourceURLValue.str (some "O"), some 99⟩,
    dims := fun _ => Except.ok (800, 600),
    extractRawExif := fun _ => Except.error (),
    parseExif := fun _ => Except.error () }

def fileVideo7 : EnteFile := ⟨7, ⟨FileType.video⟩⟩

/-- Oracle for a fully successful video fetch: thumbnail `T`, source `V`. -/
def envVideoOk : Env :=
  { renderableThumbnailURL := Except.ok (some "T"),
    renderableSourceURLs := Except.ok ⟨SourceURLValue.str (some "V"), none⟩,
    dims := fun _ => Except.ok (800, 600),
    extractRawExif := fun _ => Except.error (),
    parseExif := fun _ => Except.error () }

/-- State holding just the loading placeholder for video file 7, as left
by `itemDataForFile` immediately before its pipeline run starts. -/
def stateVideoPlaceholder : DSState :=
  { itemDataByFileID := [(7, placeholderItemData 7 FileType.video)],
    needsRefreshByFileID := [(7, 1)] }

def fileLive5 : EnteFile := ⟨5, ⟨FileType.livePhoto⟩⟩

/-- Live-photo source bundle whose image component resolves to `I` with
blob `9` and whose video component rejects. -/
def lpVideoFails : LivePhotoSourceURL :=
  ⟨Except.ok (some "I"), Except.error (), some 9⟩

def envLiveVideoFail : Env :=
  { renderableThumbnailURL := Except.ok (some "T"),
    renderableSourceURLs := Except.ok ⟨SourceURLValue.live lpVideoFails, none⟩,
    dims := fun u => if u = "T" then Except.ok (10, 20) else Except.ok (30, 40),
    extractRawExif := fun _ => Except.error (),
    parseExif := fun _ => Except.error () }

def fileImage3 : EnteFile := ⟨3, ⟨FileType.image⟩⟩

/-- Oracle where the thumbnail succeeds but the source-URL fetch for the
original rejects. -/
def envImageOrigFail : Env :=
  { renderableThumbnailURL := Except.ok (some "T"),
    renderableSourceURLs := Except.error (),
    dims := fun _ => Except.ok (8, 6),
    extractRawExif := fun _ => Except.error (),
    parseExif := fun _ => Except.error () }

def stateImage3Placeholder : DSState :=
  { itemDataByFileID := [(3, placeholderItemData 3 FileType.image)] }

/-- Oracle whose thumbnail fetch rejects. -/
def envThumbFail : Env :=
  { renderableThumbnailURL := Except.error (),
    renderableSourceURLs := Except.ok ⟨SourceURLValue.str (some "O"), none⟩,
    dims := fun _ => Except.ok (8, 6),
    extractRawExif := fun _ => Except.error (),
    parseExif := fun _ => Except.error () }

def fileImage9 : EnteFile := ⟨9, ⟨FileType.image⟩⟩

/-- State holding a failed entry for file 9 (and some Exif-side state, to
observe the frame conditions of the forget operations). -/
def stateFailed9 : DSState :=
  { itemDataByFileID :=
      [(9, { fileID := 9, fileType := FileType.image, src := some "T",
             fetchFailed := some true })],
    needsRefreshByFileID := [(9, 2)],
    fileInfoExifByFileID := [(9, { tags := some 1, parsed := some 2 })],
    exifObserverByFileID := [(9, 3)] }

def itemVideo11 : ItemData := { fileID := 11, fileType := FileType.video }

/-- State with an Exif observer registered for file 11 and no cached Exif. -/
def stateObs11 : DSState := { exifObserverByFileID := [(11, 4)] }

/-- System with the placeholder entry for video file 7 present and its
pipeline still at the thumbnail stage. -/
def sysPresent7 : Sys :=
  { st := stateVideoPlaceholder,
    runs := [(7, (fileVideo7, RunPhase.thumbStage))] }

/-- The partial committed by `markFailed`: the cached entry (or nothing)
with `isContentLoading` deleted and `fetchFailed: true` added. -/
def failPatch (file : EnteFile) (s : DSState) : ItemDataPatch :=
  { (match AMap.get s.itemDataByFileID file.id with
     | some d => d.toPatch
     | none => {}) with
    isContentLoading := none, fetchFailed := some true }

/-- Field presence is preserved from `a` to `b`. -/
def presField {α : Type} (a b : Option α) : Prop :=
  a.isSome = true → b.isSome = true

/-- One amended monotonicity step between consecutive cached values of a
file of type `ft`: the content fields `imageURL`, `originalImageBlob`,
`videoURL` and the flag `fetchFailed` are never dropped, and `src`,
`width`, `height` are never dropped except by the terminal update of a
video file; no constraint is placed on the indicator flags
`isContentLoading` and `isContentZoomable`. -/
def presStep (ft : FileType) (a b : ItemData) : Prop :=
  presField a.imageURL b.imageURL ∧
  presField a.originalImageBlob b.originalImageBlob ∧
  presField a.videoURL b.videoURL ∧
  presField a.fetchFailed b.fetchFailed ∧
  (ft ≠ FileType.video →
    presField a.src b.src ∧ presField a.width b.width ∧
    presField a.height b.height)

end DataSource

namespace DataSource

namespace AMap

@[simp]
theorem get_set_self {β : Type} (m : AMap β) (k : Nat) (v : β) :
    get (set m k v) k = some v := by
  induction m with
  | nil => simp [get, set]
  | cons kv rest ih =>
      obtain ⟨k2, v2⟩ := kv
      by_cases h : k2 = k
      · simp [set, h, get]
      · simp [set, h, get, ih]

theorem get_set_ne {β : Type} (m : AMap β) (k k2 : Nat) (v : β) (h : k2 ≠ k) :
    get (set m k v) k2 = get m k2 := by
  have h2 : ¬k = k2 := fun he => h he.symm
  induction m with
  | nil => simp [get, set, h2]
  | cons kv rest ih =>
      obtain ⟨k3, v3⟩ := kv
      by_cases h3 : k3 = k
      · subst h3
        simp [set, get, h2]
      · simp only [set, h3, if_false, get]
        by_cases h4 : k3 = k2 <;> simp [h4, ih]

@[simp]
theorem get_del_self {β : Type} (m : AMap β) (k : Nat) :
    get (del m k) k = none := by
  induction m with
  | nil => simp [get, del]
  | cons kv rest ih =>
      obtain ⟨k2, v2⟩ := kv
      by_cases h : k2 = k
      · simp [del, h, ih]
      · simp [del, h, get, ih]

theorem get_del_ne {β : Type} (m : AMap β) (k k2 : Nat) (h : k2 ≠ k) :
    get (del m k) k2 = get m k2 := by
  have h2 : ¬k = k2 := fun he => h he.symm
  induction m with
  | nil => simp [del]
  | cons kv rest ih =>
      obtain ⟨k3, v3⟩ := kv
      by_cases h3 : k3 = k
      · subst h3
        simp [del, get, h2, ih]
      · simp only [del, h3, if_false, get]
        by_cases h4 : k3 = k2 <;> simp [h4, ih]

theorem isSome_get_set {β : Type} (m : AMap β) (k k2 : Nat) (v : β)
    (h : (get m k2).isSome = true) : (get (set m k v) k2).isSome = true := by
  by_cases hk : k2 = k
  · subst hk; simp
  · rwa [get_set_ne m k k2 v hk]

theorem mem_keys_of_get {β : Type} (m : AMap β) (k : Nat) (v : β)
    (h : get m k = some v) : k ∈ keys m := by
  induction m with
  | nil => simp [get] at h
  | cons kv rest ih =>
      obtain ⟨k2, v2⟩ := kv
      by_cases h2 : k2 = k
      · simp [keys, h2]
      · simp only [get, h2, if_false] at h
        simp [keys] at ih ⊢
        exact Or.inr (by simpa [keys] using ih h)

end AMap

end DataSource

namespace DataSource

/-- Frame of one forget operation: only the item-data map changes. -/
theorem forgetFailed_frame_one (fid : Nat) (s : DSState) :
    (forgetFailedItemDataForFileID fid s).1.needsRefreshByFileID = s.needsRefreshByFileID ∧
    (forgetFailedItemDataForFileID fid s).1.fileInfoExifByFileID = s.fileInfoExifByFileID ∧
    (forgetFailedItemDataForFileID fid s).1.exifObserverByFileID = s.exifObserverByFileID := by
  unfold forgetFailedItemDataForFileID
  rcases AMap.get s.itemDataByFileID fid with _ | d
  · simp
  · by_cases hf : d.fetchFailed = some true <;> simp [hf]

/-- Frame of the fold inside `forgetFailedItems`. -/
theorem forgetFailedItems_frame_aux (ks : List Nat) (acc : DSState × List Event) :
    ((ks.foldl (fun acc fid =>
        let r := forgetFailedItemDataForFileID fid acc.1
        (r.1, acc.2 ++ r.2)) acc)).1.needsRefreshByFileID = acc.1.needsRefreshByFileID ∧
    ((ks.foldl (fun acc fid =>
        let r := forgetFailedItemDataForFileID fid acc.1
        (r.1, acc.2 ++ r.2)) acc)).1.fileInfoExifByFileID = acc.1.fileInfoExifByFileID ∧
    ((ks.foldl (fun acc fid =>
        let r := forgetFailedItemDataForFileID fid acc.1
        (r.1, acc.2 ++ r.2)) acc)).1.exifObserverByFileID = acc.1.exifObserverByFileID := by
  induction ks generalizing acc with
  | nil => simp
  | cons k ks ih =>
      simp only [List.foldl_cons]
      have h1 := forgetFailed_frame_one k acc.1
      have h2 := ih ((forgetFailedItemDataForFileID k acc.1).1,
        acc.2 ++ (forgetFailedItemDataForFileID k acc.1).2)
      exact ⟨h2.1.trans h1.1, h2.2.1.trans h1.2.1, h2.2.2.trans h1.2.2⟩

/-- C10: forgetting a failed item — singly via
`forgetFailedItemDataForFileID` or in bulk via `forgetFailedItems` —
modifies only the item-data map: the refresh-callback registry, the Exif
cache and the Exif observer registry are left unchanged, so a previously
registered refresh callback is still the one invoked by a later pipeline
cache update. -/
theorem forgetFailed_modifies_only_itemData (s : DSState) (fid : Nat) :
    ((forgetFailedItemDataForFileID fid s).1.needsRefreshByFileID = s.needsRefreshByFileID ∧
     (forgetFailedItemDataForFileID fid s).1.fileInfoExifByFileID = s.fileInfoExifByFileID ∧
     (forgetFailedItemDataForFileID fid s).1.exifObserverByFileID = s.exifObserverByFileID) ∧
    ((forgetFailedItems s).1.needsRefreshByFileID = s.needsRefreshByFileID ∧
     (forgetFailedItems s).1.fileInfoExifByFileID = s.fileInfoExifByFileID ∧
     (forgetFailedItems s).1.exifObserverByFileID = s.exifObserverByFileID) ∧
    (∀ (file : EnteFile) (cb : Nat) (p : ItemDataPatch),
      AMap.get s.needsRefreshByFileID file.id = some cb →
      (update file p (forgetFailedItemDataForFileID fid s).1).2 =
        [Event.cacheWrite file.id (patchToItemData p file.id file.metadata.fileType),
         Event.refresh cb]) := by
  refine ⟨forgetFailed_frame_one fid s, ?_, ?_⟩
  · exact forgetFailedItems_frame_aux (AMap.keys s.itemDataByFileID) (s, [])
  · intro file cb p hcb
    have hfr := (forgetFailed_frame_one fid s).1
    simp [update, hfr, hcb]

/-- C10 witness at a concrete failed state. -/
theorem forgetFailed_modifies_only_itemData_witness :
    (forgetFailedItemDataForFileID 9 stateFailed9).1.needsRefreshByFileID =
      stateFailed9.needsRefreshByFileID ∧
    (update fileImage9 {} (forgetFailedItemDataForFileID 9 stateFailed9).1).2 =
      [Event.cacheWrite 9 (patchToItemData {} 9 FileType.image), Event.refresh 2] :=
  ⟨(forgetFailed_modifies_only_itemData stateFailed9 9).1.1,
   (forgetFailed_modifies_only_itemData stateFailed9 9).2.2 fileImage9 2 {} (by decide)⟩

end DataSource

namespace DataSource

/-- C7: `forgetFailedItemDataForFileID` leaves the item cache unchanged
when no entry exists for the ID or when the entry's `fetchFailed` is not
truthy, and removes the entry when `fetchFailed` is truthy; a subsequent
request for that ID then inserts a fresh loading placeholder and starts a
new pipeline run. -/
theorem forgetFailed_then_request_retries (s : DSState) (fid : Nat) :
    (AMap.get s.itemDataByFileID fid = none →
      forgetFailedItemDataForFileID fid s = (s, [])) ∧
    (∀ d, AMap.get s.itemDataByFileID fid = some d →
      d.fetchFailed ≠ some true →
      forgetFailedItemDataForFileID fid s = (s, [])) ∧
    (∀ d, AMap.get s.itemDataByFileID fid = some d →
      d.fetchFailed = some true →
      AMap.get (forgetFailedItemDataForFileID fid s).1.itemDataByFileID fid = none ∧
      ∀ (file : EnteFile) (cb : Nat), file.id = fid →
        (itemDataForFile file cb (forgetFailedItemDataForFileID fid s).1).started = true ∧
        AMap.get (itemDataForFile file cb
            (forgetFailedItemDataForFileID fid s).1).state.itemDataByFileID fid =
          some (placeholderItemData fid file.metadata.fileType)) := by
  refine ⟨fun h => ?_, fun d hd hff => ?_, fun d hd hff => ?_⟩
  · simp [forgetFailedItemDataForFileID, h]
  · simp [forgetFailedItemDataForFileID, hd, hff]
  · have hdel : AMap.get (forgetFailedItemDataForFileID fid s).1.itemDataByFileID fid = none := by
      simp [forgetFailedItemDataForFileID, hd, hff]
    refine ⟨hdel, fun file cb hfid => ?_⟩
    subst hfid
    exact ⟨by simp [itemDataForFile, hdel], by simp [itemDataForFile, hdel]⟩

/-- C7 witness: forgetting failed file 9 then requesting it again. -/
theorem forgetFailed_then_request_retries_witness :
    AMap.get (forgetFailedItemDataForFileID 9 stateFailed9).1.itemDataByFileID 9 = none ∧
    (itemDataForFile fileImage9 2 (forgetFailedItemDataForFileID 9 stateFailed9).1).started = true :=
  ⟨((forgetFailed_then_request_retries stateFailed9 9).2.2
      { fileID := 9, fileType := FileType.image, src := some "T", fetchFailed := some true }
      (by decide) (by decide)).1,
   (((forgetFailed_then_request_retries stateFailed9 9).2.2
      { fileID := 9, fileType := FileType.image, src := some "T", fetchFailed := some true }
      (by decide) (by decide)).2 fileImage9 2 (by decide)).1⟩

/-- C9: for a video file, `updateFileInfoExifIfNeeded` commits the
`{tags: absent, parsed: absent}` placeholder to the Exif cache and
notifies the observer registered via `fileInfoExifForFile`, without ever
invoking the metadata extractor or parser; the placeholder is terminal —
any later call for that file is a no-op. -/
theorem videoExif_placeholder (env : Env) (s : DSState) (d : ItemData) (ob : Nat)
    (hft : d.fileType = FileType.video)
    (hmiss : AMap.get s.fileInfoExifByFileID d.fileID = none)
    (hob : AMap.get s.exifObserverByFileID d.fileID = some ob) :
    (updateFileInfoExifIfNeeded env d s).1 = some createPlaceholderFileInfoExif ∧
    AMap.get (updateFileInfoExifIfNeeded env d s).2.1.fileInfoExifByFileID d.fileID =
      some createPlaceholderFileInfoExif ∧
    (updateFileInfoExifIfNeeded env d s).2.2 =
      [Event.exifWrite d.fileID createPlaceholderFileInfoExif,
       Event.exifNotify ob createPlaceholderFileInfoExif] ∧
    (∀ g, Event.extractExifCall g ∉ (updateFileInfoExifIfNeeded env d s).2.2 ∧
          Event.parseExifCall g ∉ (updateFileInfoExifIfNeeded env d s).2.2) ∧
    (∀ (env2 : Env) (d2 : ItemData), d2.fileID = d.fileID →
      updateFileInfoExifIfNeeded env2 d2 (updateFileInfoExifIfNeeded env d s).2.1 =
        (none, (updateFileInfoExifIfNeeded env d s).2.1, [])) := by
  have hres : updateFileInfoExifIfNeeded env d s =
      (some createPlaceholderFileInfoExif,
       { s with fileInfoExifByFileID :=
           AMap.set s.fileInfoExifByFileID d.fileID createPlaceholderFileInfoExif },
       [Event.exifWrite d.fileID createPlaceholderFileInfoExif,
        Event.exifNotify ob createPlaceholderFileInfoExif]) := by
    simp [updateFileInfoExifIfNeeded, hmiss, hft, updateNotifyAndReturn, hob]
  rw [hres]
  refine ⟨rfl, by simp, rfl, by simp, fun env2 d2 h2 => ?_⟩
  simp [updateFileInfoExifIfNeeded, h2]

/-- C9 witness: concrete video item with a registered observer. -/
theorem videoExif_placeholder_witness :
    (updateFileInfoExifIfNeeded envC8 itemVideo11 stateObs11).1 =
      some createPlaceholderFileInfoExif ∧
    (updateFileInfoExifIfNeeded envC8 itemVideo11 stateObs11).2.2 =
      [Event.exifWrite 11 createPlaceholderFileInfoExif,
       Event.exifNotify 4 createPlaceholderFileInfoExif] :=
  ⟨(videoExif_placeholder envC8 stateObs11 itemVideo11 4
      (by decide) (by decide) (by decide)).1,
   (videoExif_placeholder envC8 stateObs11 itemVideo11 4
      (by decide) (by decide) (by decide)).2.2.1⟩

/-- C8: for image file 42 with thumbnail URL `T`, source URL `O`, blob 99
and all dimensions 800×600, the request returns the loading placeholder
and caches it, and then the pipeline passes through exactly the thumbnail
state and the final original state, firing one refresh notification
synchronously after each of the two cache writes. -/
theorem imageScenario42 :
    (itemDataForFile fileImage42 5 initialState).itemData =
        placeholderItemData 42 FileType.image ∧
    AMap.get (itemDataForFile fileImage42 5 initialState).state.itemDataByFileID 42 =
        some (placeholderItemData 42 FileType.image) ∧
    (requestAndRun envC8 fileImage42 5 initialState).2.2 =
      [Event.cacheWrite 42
         { fileID := 42, fileType := FileType.image,
           src := some "T", width := some 800, height := some 600,
           isContentLoading := some true, isContentZoomable := some false },
       Event.refresh 5,
       Event.cacheWrite 42
         { fileID := 42, fileType := FileType.image,
           src := some "O", width := some 800, height := some 600,
           imageURL := some "O", originalImageBlob := some 99 },
       Event.refresh 5] ∧
    AMap.get (requestAndRun envC8 fileImage42 5 initialState).2.1.itemDataByFileID 42 =
      some { fileID := 42, fileType := FileType.image, src := some "O",
             width := some 800, height := some 600, imageURL := some "O",
             originalImageBlob := some 99 } := by
  decide

end DataSource


namespace DataSource

/-- Events of one `update` call: the cache write, then at most one refresh
notification for the registered callback. -/
theorem update_events (file : EnteFile) (p : ItemDataPatch) (s : DSState) :
    (update file p s).2 =
      Event.cacheWrite file.id (patchToItemData p file.id file.metadata.fileType) ::
      (match AMap.get s.needsRefreshByFileID file.id with
       | some cb => [Event.refresh cb]
       | none => []) := rfl

theorem update_itemMap (file : EnteFile) (p : ItemDataPatch) (s : DSState) :
    (update file p s).1.itemDataByFileID =
      AMap.set s.itemDataByFileID file.id
        (patchToItemData p file.id file.metadata.fileType) := rfl

theorem cacheWrites_update (file : EnteFile) (p : ItemDataPatch) (s : DSState) :
    cacheWrites (update file p s).2 =
      [patchToItemData p file.id file.metadata.fileType] := by
  rw [update_events]
  cases AMap.get s.needsRefreshByFileID file.id <;> simp [cacheWrites]

/-- `markFailed` with a known cached entry: clear `isContentLoading`, add
`fetchFailed`, keep everything else. -/
theorem markFailed_eq (file : EnteFile) (d : ItemData) (s : DSState)
    (h : AMap.get s.itemDataByFileID file.id = some d) :
    markFailed file s =
      update file
        { d.toPatch with isContentLoading := none, fetchFailed := some true } s := by
  simp [markFailed, h]

theorem runStep_done (env : Env) (file : EnteFile) (s : DSState) :
    runStep env file RunPhase.done s = ⟨s, [], RunPhase.done⟩ := rfl

/-- Unfold an `enqueueUpdates` run from the results of its three steps. -/
theorem enqueueUpdates_comp (env : Env) (file : EnteFile) (s : DSState)
    (a b c : StepResult)
    (h1 : runStep env file RunPhase.thumbStage s = a)
    (h2 : runStep env file a.phase a.state = b)
    (h3 : runStep env file b.phase b.state = c) :
    enqueueUpdates env file s = (c.state, a.events ++ b.events ++ c.events) := by
  simp only [enqueueUpdates, h1, h2, h3]

end DataSource

namespace DataSource

/-- C6: if the thumbnail stage fails (the thumbnail fetch or its dimension
resolution throws), the resulting cached `ItemData` has no `src`, `width`
or `height`, has `fetchFailed` true and `isContentLoading` absent, and the
run performs no further stage: its only cache write is the failure write
and the run is already in its terminal phase. -/
theorem thumbFail_terminal (env : Env) (file : EnteFile) (s : DSState)
    (hth : thumbnailResult env = Except.error ())
    (hpl : AMap.get s.itemDataByFileID file.id =
      some (placeholderItemData file.id file.metadata.fileType)) :
    AMap.get (enqueueUpdates env file s).1.itemDataByFileID file.id =
      some { fileID := file.id, fileType := file.metadata.fileType,
             fetchFailed := some true } ∧
    cacheWrites (enqueueUpdates env file s).2 =
      [{ fileID := file.id, fileType := file.metadata.fileType,
         fetchFailed := some true }] ∧
    (runStep env file RunPhase.thumbStage s).phase = RunPhase.done := by
  have hmf : markFailed file s = update file { fetchFailed := some true } s := by
    rw [markFailed_eq file _ s hpl]
    rfl
  have h1 : runStep env file RunPhase.thumbStage s =
      ⟨(update file { fetchFailed := some true } s).1,
       (update file { fetchFailed := some true } s).2, RunPhase.done⟩ := by
    simp [runStep, hth, hmf]
  have h2 : enqueueUpdates env file s =
      ((update file { fetchFailed := some true } s).1,
       (update file { fetchFailed := some true } s).2 ++ [] ++ []) :=
    enqueueUpdates_comp env file s _ _ _ h1 (runStep_done ..) (runStep_done ..)
  rw [h2]
  refine ⟨?_, ?_, by rw [h1]⟩
  · rw [update_itemMap]
    simp [patchToItemData]
  · simp only [List.append_nil]
    rw [cacheWrites_update]
    simp [patchToItemData]

/-- C6 witness: thumbnail failure for image file 3. -/
theorem thumbFail_terminal_witness :
    AMap.get (enqueueUpdates envThumbFail fileImage3 stateImage3Placeholder).1.itemDataByFileID 3 =
      some { fileID := 3, fileType := FileType.image, fetchFailed := some true } :=
  (thumbFail_terminal envThumbFail fileImage3 stateImage3Placeholder
    (by rfl) (by decide)).1

end DataSource

namespace DataSource

/-- C5: for an image file whose thumbnail stage succeeds but whose
original fetch (source-URL fetch, its `ensureString`, or its dimension
resolution) throws, the final cached `ItemData` keeps the thumbnail's
`src`, `width` and `height`, gains `fetchFailed` true, and has
`isContentLoading`, `imageURL` and `originalImageBlob` absent. -/
theorem imageOrigFail_keepsThumb (env : Env) (file : EnteFile) (s : DSState)
    (tu : String) (tw th : Nat)
    (hft : file.metadata.fileType = FileType.image)
    (h1 : env.renderableThumbnailURL = Except.ok (some tu))
    (h2 : env.dims tu = Except.ok (tw, th))
    (h3 : imageOriginalResult env = Except.error ()) :
    AMap.get (enqueueUpdates env file s).1.itemDataByFileID file.id =
      some { fileID := file.id, fileType := FileType.image,
             src := some tu, width := some tw, height := some th,
             isContentZoomable := some false, fetchFailed := some true } := by
  have hth : thumbnailResult env = Except.ok
      { src := some tu, width := some tw, height := some th } := by
    simp [thumbnailResult, h1, ensureString, withDimensions, h2]
  have hs1 : runStep env file RunPhase.thumbStage s =
      ⟨(update file { src := some tu, width := some tw, height := some th,
                      isContentLoading := some true,
                      isContentZoomable := some false } s).1,
       (update file { src := some tu, width := some tw, height := some th,
                      isContentLoading := some true,
                      isContentZoomable := some false } s).2,
       RunPhase.originalStage⟩ := by
    simp [runStep, hth]
  have hget1 : AMap.get (update file
      { src := some tu, width := some tw, height := some th,
        isContentLoading := some true,
        isContentZoomable := some false } s).1.itemDataByFileID file.id =
      some (patchToItemData
        { src := some tu, width := some tw, height := some th,
          isContentLoading := some true, isContentZoomable := some false }
        file.id file.metadata.fileType) := by
    rw [update_itemMap]
    simp
  have hmf2 : markFailed file (update file
      { src := some tu, width := some tw, height := some th,
        isContentLoading := some true,
        isContentZoomable := some false } s).1 =
      update file
        { src := some tu, width := some tw, height := some th,
          isContentZoomable := some false, fetchFailed := some true }
        (update file { src := some tu, width := some tw, height := some th,
                       isContentLoading := some true,
                       isContentZoomable := some false } s).1 := by
    rw [markFailed_eq _ _ _ hget1]
    rfl
  have hs2 : runStep env file RunPhase.originalStage (update file
      { src := some tu, width := some tw, height := some th,
        isContentLoading := some true,
        isContentZoomable := some false } s).1 =
      ⟨(update file
          { src := some tu, width := some tw, height := some th,
            isContentZoomable := some false, fetchFailed := some true }
          (update file { src := some tu, width := some tw, height := some th,
                         isContentLoading := some true,
                         isContentZoomable := some false } s).1).1,
       (update file
          { src := some tu, width := some tw, height := some th,
            isContentZoomable := some false, fetchFailed := some true }
          (update file { src := some tu, width := some tw, height := some th,
                         isContentLoading := some true,
                         isContentZoomable := some false } s).1).2,
       RunPhase.done⟩ := by
    simp [runStep, hft, h3, hmf2]
  have hall := enqueueUpdates_comp env file s _ _ _ hs1 hs2 (runStep_done ..)
  rw [hall]
  simp only []
  rw [update_itemMap]
  simp [patchToItemData, hft]

/-- C5 witness: image file 3, thumbnail `T` at 8×6, original fetch fails. -/
theorem imageOrigFail_keepsThumb_witness :
    AMap.get (enqueueUpdates envImageOrigFail fileImage3 initialState).1.itemDataByFileID 3 =
      some { fileID := 3, fileType := FileType.image,
             src := some "T", width := some 8, height := some 6,
             isContentZoomable := some false, fetchFailed := some true } :=
  imageOrigFail_keepsThumb envImageOrigFail fileImage3 initialState "T" 8 6
    (by rfl) (by rfl) (by rfl) (by rfl)

end DataSource

namespace DataSource

/-- C3: for a live photo whose thumbnail and image-component resolutions
succeed but whose video-component resolution rejects, the final cached
`ItemData` has populated `imageURL`, `originalImageBlob`, `src`, `width`
and `height`, has `fetchFailed` true and `isContentLoading` absent, and no
`videoURL`; the committed image fields are not rolled back. -/
theorem livePhotoVideoFail_keepsImage (env : Env) (file : EnteFile) (s : DSState)
    (tu iu : String) (tw th iw ih : Nat) (b : Blob)
    (su : SourceURLs) (lp : LivePhotoSourceURL)
    (hft : file.metadata.fileType = FileType.livePhoto)
    (h1 : env.renderableThumbnailURL = Except.ok (some tu))
    (h2 : env.dims tu = Except.ok (tw, th))
    (h3 : env.renderableSourceURLs = Except.ok su)
    (h4 : su.url = SourceURLValue.live lp)
    (h5 : lp.image = Except.ok (some iu))
    (h6 : env.dims iu = Except.ok (iw, ih))
    (h7 : lp.originalImageBlob = some b)
    (h8 : lp.video = Except.error ()) :
    AMap.get (enqueueUpdates env file s).1.itemDataByFileID file.id =
      some { fileID := file.id, fileType := FileType.livePhoto,
             src := some iu, width := some iw, height := some ih,
             imageURL := some iu, originalImageBlob := some b,
             videoURL := none, isContentLoading := none,
             fetchFailed := some true } := by
  have hth : thumbnailResult env = Except.ok
      { src := some tu, width := some tw, height := some th } := by
    simp [thumbnailResult, h1, ensureString, withDimensions, h2]
  have hlp : livePhotoImageResult env = Except.ok
      ({ src := some iu, width := some iw, height := some ih,
         imageURL := some iu, originalImageBlob := some b }, lp) := by
    simp [livePhotoImageResult, h3, h4, SourceURLValue.asLivePhoto, h5,
      ensureString, withDimensions, h6, h7]
  have hs1 : runStep env file RunPhase.thumbStage s =
      ⟨(update file { src := some tu, width := some tw, height := some th,
                      isContentLoading := some true,
                      isContentZoomable := some false } s).1,
       (update file { src := some tu, width := some tw, height := some th,
                      isContentLoading := some true,
                      isContentZoomable := some false } s).2,
       RunPhase.originalStage⟩ := by
    simp [runStep, hth]
  have hs2 : runStep env file RunPhase.originalStage (update file
      { src := some tu, width := some tw, height := some th,
        isContentLoading := some true,
        isContentZoomable := some false } s).1 =
      ⟨(update file
          { src := some iu, width := some iw, height := some ih,
            imageURL := some iu, originalImageBlob := some b }
          (update file { src := some tu, width := some tw, height := some th,
                         isContentLoading := some true,
                         isContentZoomable := some false } s).1).1,
       (update file
          { src := some iu, width := some iw, height := some ih,
            imageURL := some iu, originalImageBlob := some b }
          (update file { src := some tu, width := some tw, height := some th,
                         isContentLoading := some true,
                         isContentZoomable := some false } s).1).2,
       RunPhase.livePhotoVideoStage
         { src := some iu, width := some iw, height := some ih,
           imageURL := some iu, originalImageBlob := some b } lp⟩ := by
    simp [runStep, hft, hlp]
  set s2 := (update file
      { src := some iu, width := some iw, height := some ih,
        imageURL := some iu, originalImageBlob := some b }
      (update file { src := some tu, width := some tw, height := some th,
                     isContentLoading := some true,
                     isContentZoomable := some false } s).1).1 with hs2def
  have hget2 : AMap.get s2.itemDataByFileID file.id =
      some (patchToItemData
        { src := some iu, width := some iw, height := some ih,
          imageURL := some iu, originalImageBlob := some b }
        file.id file.metadata.fileType) := by
    rw [hs2def, update_itemMap]
    simp
  have hmf : markFailed file s2 =
      update file
        { src := some iu, width := some iw, height := some ih,
          imageURL := some iu, originalImageBlob := some b,
          fetchFailed := some true } s2 := by
    rw [markFailed_eq _ _ _ hget2]
    rfl
  have hs3 : runStep env file
      (RunPhase.livePhotoVideoStage
        { src := some iu, width := some iw, height := some ih,
          imageURL := some iu, originalImageBlob := some b } lp) s2 =
      ⟨(update file
          { src := some iu, width := some iw, height := some ih,
            imageURL := some iu, originalImageBlob := some b,
            fetchFailed := some true } s2).1,
       (update file
          { src := some iu, width := some iw, height := some ih,
            imageURL := some iu, originalImageBlob := some b,
            fetchFailed := some true } s2).2,
       RunPhase.done⟩ := by
    simp [runStep, h8, hmf]
  have hall := enqueueUpdates_comp env file s _ _ _ hs1 hs2 hs3
  rw [hall]
  rw [update_itemMap]
  simp [patchToItemData, hft]

/-- C3 witness: live-photo file 5 with thumbnail 10×20, image component
`I` at 30×40 with blob 9, and a rejecting video component. -/
theorem livePhotoVideoFail_keepsImage_witness :
    AMap.get (enqueueUpdates envLiveVideoFail fileLive5 initialState).1.itemDataByFileID 5 =
      some { fileID := 5, fileType := FileType.livePhoto,
             src := some "I", width := some 30, height := some 40,
             imageURL := some "I", originalImageBlob := some 9,
             videoURL := none, isContentLoading := none,
             fetchFailed := some true } :=
  livePhotoVideoFail_keepsImage envLiveVideoFail fileLive5 initialState
    "T" "I" 10 20 30 40 9 ⟨SourceURLValue.live lpVideoFails, none⟩ lpVideoFails
    (by rfl) (by rfl) (by rfl) (by rfl) (by rfl) (by rfl) (by rfl)
    (by rfl) (by rfl)

end DataSource

namespace DataSource

theorem markFailed_def (file : EnteFile) (s : DSState) :
    markFailed file s = update file (failPatch file s) s := rfl

theorem cacheWrites_markFailed (file : EnteFile) (s : DSState) :
    cacheWrites (markFailed file s).2 =
      [patchToItemData (failPatch file s) file.id file.metadata.fileType] := by
  rw [markFailed_def]
  exact cacheWrites_update file (failPatch file s) s

theorem failPatch_eq (file : EnteFile) (d : ItemData) (s : DSState)
    (h : AMap.get s.itemDataByFileID file.id = some d) :
    failPatch file s =
      { d.toPatch with isContentLoading := none, fetchFailed := some true } := by
  unfold failPatch
  rw [h]

/-- Shape of a successful thumbnail stage result. -/
theorem thumbnailResult_ok_shape (env : Env) (td : ItemDataPatch)
    (h : thumbnailResult env = Except.ok td) :
    td.imageURL = none ∧ td.originalImageBlob = none ∧ td.videoURL = none ∧
    td.fetchFailed = none ∧ td.src.isSome = true ∧ td.width.isSome = true ∧
    td.height.isSome = true := by
  unfold thumbnailResult at h
  rcases h1 : env.renderableThumbnailURL with e | tu
  · simp only [h1] at h
    exact Except.noConfusion h
  · simp only [h1] at h
    rcases tu with _ | turl
    · simp only [ensureString] at h
      exact Except.noConfusion h
    · simp only [ensureString] at h
      unfold withDimensions at h
      rcases h2 : env.dims turl with e | wh
      · simp only [h2] at h
        exact Except.noConfusion h
      · simp only [h2] at h
        injection h with h
        subst h
        simp

/-- Shape of a successful image original stage result. -/
theorem imageOriginalResult_ok_shape (env : Env) (d : ItemDataPatch)
    (h : imageOriginalResult env = Except.ok d) :
    d.videoURL = none ∧ d.fetchFailed = none ∧ d.isContentLoading = none ∧
    d.src.isSome = true ∧ d.width.isSome = true ∧ d.height.isSome = true ∧
    d.imageURL.isSome = true := by
  unfold imageOriginalResult at h
  rcases h1 : env.renderableSourceURLs with e | su
  · simp only [h1] at h
    exact Except.noConfusion h
  · simp only [h1] at h
    rcases h2 : su.url with u | bundle
    · simp only [h2, ensureStringValue] at h
      rcases u with _ | us
      · simp only [ensureStringValue] at h
        exact Except.noConfusion h
      · simp only [ensureStringValue] at h
        unfold withDimensions at h
        rcases h3 : env.dims us with e | wh
        · simp only [h3] at h
          exact Except.noConfusion h
        · simp only [h3] at h
          injection h with h
          subst h
          simp
    · simp only [h2, ensureStringValue] at h
      exact Except.noConfusion h

/-- Shape of a successful video original stage result. -/
theorem videoOriginalResult_ok_shape (env : Env) (d : ItemDataPatch)
    (h : videoOriginalResult env = Except.ok d) :
    d.src = none ∧ d.width = none ∧ d.height = none ∧ d.imageURL = none ∧
    d.originalImageBlob = none ∧ d.fetchFailed = none ∧
    d.isContentLoading = none := by
  unfold videoOriginalResult at h
  rcases h1 : env.renderableSourceURLs with e | su
  · simp only [h1] at h
    exact Except.noConfusion h
  · simp only [h1] at h
    injection h with h
    subst h
    simp

/-- Shape of a successful live-photo image component result. -/
theorem livePhotoImageResult_ok_shape (env : Env)
    (dlp : ItemDataPatch × LivePhotoSourceURL)
    (h : livePhotoImageResult env = Except.ok dlp) :
    dlp.1.videoURL = none ∧ dlp.1.fetchFailed = none ∧
    dlp.1.isContentLoading = none ∧ dlp.1.src.isSome = true ∧
    dlp.1.width.isSome = true ∧ dlp.1.height.isSome = true ∧
    dlp.1.imageURL.isSome = true := by
  unfold livePhotoImageResult at h
  rcases h1 : env.renderableSourceURLs with e | su
  · simp only [h1] at h
    exact Except.noConfusion h
  · simp only [h1] at h
    rcases h2 : su.url with u | bundle
    · simp only [h2, SourceURLValue.asLivePhoto] at h
      exact Except.noConfusion h
    · simp only [h2, SourceURLValue.asLivePhoto] at h
      rcases h3 : bundle.image with e | iu
      · simp only [h3] at h
        exact Except.noConfusion h
      · simp only [h3] at h
        rcases iu with _ | ius
        · simp only [ensureString] at h
          exact Except.noConfusion h
        · simp only [ensureString] at h
          unfold withDimensions at h
          rcases h4 : env.dims ius with e | wh
          · simp only [h4] at h
            exact Except.noConfusion h
          · simp only [h4] at h
            injection h with h
            subst h
            simp

end DataSource

namespace DataSource

theorem cacheWrites_append (a b : List Event) :
    cacheWrites (a ++ b) = cacheWrites a ++ cacheWrites b := by
  simp [cacheWrites, List.filterMap_append]

theorem runStep_thumb_err (env : Env) (file : EnteFile) (s : DSState)
    (h : thumbnailResult env = Except.error ()) :
    runStep env file RunPhase.thumbStage s =
      ⟨(markFailed file s).1, (markFailed file s).2, RunPhase.done⟩ := by
  simp [runStep, h]

theorem runStep_thumb_ok (env : Env) (file : EnteFile) (s : DSState)
    (td : ItemDataPatch) (h : thumbnailResult env = Except.ok td) :
    runStep env file RunPhase.thumbStage s =
      ⟨(update file { td with isContentLoading := some true,
                              isContentZoomable := some false } s).1,
       (update file { td with isContentLoading := some true,
                              isContentZoomable := some false } s).2,
       RunPhase.originalStage⟩ := by
  simp [runStep, h]

theorem runStep_orig_image_err (env : Env) (file : EnteFile) (s : DSState)
    (hft : file.metadata.fileType = FileType.image)
    (h : imageOriginalResult env = Except.error ()) :
    runStep env file RunPhase.originalStage s =
      ⟨(markFailed file s).1, (markFailed file s).2, RunPhase.done⟩ := by
  simp [runStep, hft, h]

theorem runStep_orig_image_ok (env : Env) (file : EnteFile) (s : DSState)
    (d : ItemDataPatch) (hft : file.metadata.fileType = FileType.image)
    (h : imageOriginalResult env = Except.ok d) :
    runStep env file RunPhase.originalStage s =
      ⟨(update file d s).1, (update file d s).2, RunPhase.done⟩ := by
  simp [runStep, hft, h]

theorem runStep_orig_video_err (env : Env) (file : EnteFile) (s : DSState)
    (hft : file.metadata.fileType = FileType.video)
    (h : videoOriginalResult env = Except.error ()) :
    runStep env file RunPhase.originalStage s =
      ⟨(markFailed file s).1, (markFailed file s).2, RunPhase.done⟩ := by
  simp [runStep, hft, h]

theorem runStep_orig_video_ok (env : Env) (file : EnteFile) (s : DSState)
    (d : ItemDataPatch) (hft : file.metadata.fileType = FileType.video)
    (h : videoOriginalResult env = Except.ok d) :
    runStep env file RunPhase.originalStage s =
      ⟨(update file d s).1, (update file d s).2, RunPhase.done⟩ := by
  simp [runStep, hft, h]

theorem runStep_orig_live_err (env : Env) (file : EnteFile) (s : DSState)
    (hft : file.metadata.fileType = FileType.livePhoto)
    (h : livePhotoImageResult env = Except.error ()) :
    runStep env file RunPhase.originalStage s =
      ⟨(markFailed file s).1, (markFailed file s).2, RunPhase.done⟩ := by
  simp [runStep, hft, h]

theorem runStep_orig_live_ok (env : Env) (file : EnteFile) (s : DSState)
    (dlp : ItemDataPatch × LivePhotoSourceURL)
    (hft : file.metadata.fileType = FileType.livePhoto)
    (h : livePhotoImageResult env = Except.ok dlp) :
    runStep env file RunPhase.originalStage s =
      ⟨(update file dlp.1 s).1, (update file dlp.1 s).2,
       RunPhase.livePhotoVideoStage dlp.1 dlp.2⟩ := by
  simp [runStep, hft, h]

theorem runStep_lpv_err (env : Env) (file : EnteFile) (s : DSState)
    (p : ItemDataPatch) (bundle : LivePhotoSourceURL)
    (h : bundle.video = Except.error ()) :
    runStep env file (RunPhase.livePhotoVideoStage p bundle) s =
      ⟨(markFailed file s).1, (markFailed file s).2, RunPhase.done⟩ := by
  simp [runStep, h]

theorem runStep_lpv_ok (env : Env) (file : EnteFile) (s : DSState)
    (p : ItemDataPatch) (bundle : LivePhotoSourceURL) (vu : Option String)
    (h : bundle.video = Except.ok vu) :
    runStep env file (RunPhase.livePhotoVideoStage p bundle) s =
      ⟨(update file { p with videoURL := vu } s).1,
       (update file { p with videoURL := vu } s).2, RunPhase.done⟩ := by
  simp [runStep, h]

theorem presStep_placeholder (ft ft2 : FileType) (fid : Nat) (w : ItemData) :
    presStep ft (placeholderItemData fid ft2) w := by
  simp [presStep, presField, placeholderItemData]

theorem presStep_fail (ft ftb : FileType) (fid : Nat) (d : ItemData) :
    presStep ft d (patchToItemData
      { d.toPatch with isContentLoading := none, fetchFailed := some true }
      fid ftb) := by
  simp [presStep, presField, patchToItemData, ItemData.toPatch]

theorem presStep_merge (ft ftb : FileType) (fid : Nat) (p : ItemDataPatch)
    (vu : Option String) (hv : p.videoURL = none) :
    presStep ft (patchToItemData p fid ftb)
      (patchToItemData { p with videoURL := vu } fid ftb) := by
  simp [presStep, presField, patchToItemData, hv]

theorem presStep_of_shapes (ft : FileType) (a b : ItemData)
    (h1 : a.imageURL = none) (h2 : a.originalImageBlob = none)
    (h3 : a.videoURL = none) (h4 : a.fetchFailed = none)
    (h5 : ft ≠ FileType.video →
      b.src.isSome = true ∧ b.width.isSome = true ∧ b.height.isSome = true) :
    presStep ft a b := by
  refine ⟨?_, ?_, ?_, ?_,
    fun hv => ⟨fun _ => (h5 hv).1, fun _ => (h5 hv).2.1, fun _ => (h5 hv).2.2⟩⟩ <;>
    simp [presField, h1, h2, h3, h4]

end DataSource

namespace DataSource

/-- Both run-trace chains at once: consecutive cache writes of one
`enqueueUpdates` run (with the loading placeholder prepended) satisfy the
amended monotonicity relation, and a write carrying `fetchFailed` is never
followed by another write. -/
theorem run_chain_both (env : Env) (file : EnteFile) (s : DSState) :
    List.Chain' (presStep file.metadata.fileType)
      (placeholderItemData file.id file.metadata.fileType ::
        cacheWrites (enqueueUpdates env file s).2) ∧
    List.Chain' (fun d _ => d.fetchFailed ≠ some true)
      (placeholderItemData file.id file.metadata.fileType ::
        cacheWrites (enqueueUpdates env file s).2) := by
  rcases hth : thumbnailResult env with e | td
  · obtain ⟨⟩ := e
    have hall := enqueueUpdates_comp env file s _ _ _
      (runStep_thumb_err env file s hth) (runStep_done ..) (runStep_done ..)
    rw [hall]
    simp only [List.append_nil, cacheWrites_markFailed]
    constructor
    · simp [presStep_placeholder]
    · simp [placeholderItemData]
  · obtain ⟨t1, t2, t3, t4, t5, t6, t7⟩ := thumbnailResult_ok_shape env td hth
    have hs1 := runStep_thumb_ok env file s td hth
    have hget1 : AMap.get (update file
        { td with isContentLoading := some true,
                  isContentZoomable := some false } s).1.itemDataByFileID file.id =
        some (patchToItemData
          { td with isContentLoading := some true, isContentZoomable := some false }
          file.id file.metadata.fileType) := by
      rw [update_itemMap]
      simp
    have w1iu : (patchToItemData
        { td with isContentLoading := some true, isContentZoomable := some false }
        file.id file.metadata.fileType).imageURL = none := by
      simp [patchToItemData, t1]
    have w1ob : (patchToItemData
        { td with isContentLoading := some true, isContentZoomable := some false }
        file.id file.metadata.fileType).originalImageBlob = none := by
      simp [patchToItemData, t2]
    have w1vu : (patchToItemData
        { td with isContentLoading := some true, isContentZoomable := some false }
        file.id file.metadata.fileType).videoURL = none := by
      simp [patchToItemData, t3]
    have w1ff : (patchToItemData
        { td with isContentLoading := some true, isContentZoomable := some false }
        file.id file.metadata.fileType).fetchFailed = none := by
      simp [patchToItemData, t4]
    rcases hft : file.metadata.fileType with _ | _ | _
    · -- image file
      rcases hio : imageOriginalResult env with e | d2
      · obtain ⟨⟩ := e
        have hall := enqueueUpdates_comp env file s _ _ _ hs1
          (runStep_orig_image_err env file _ hft hio) (runStep_done ..)
        rw [hall]
        simp only [cacheWrites_append, cacheWrites_update, cacheWrites_markFailed,
          List.append_nil, List.singleton_append, List.cons_append, List.nil_append]
        rw [failPatch_eq file _ _ hget1]
        constructor
        · simp only [List.chain'_cons, List.chain'_singleton, and_true]
          exact ⟨presStep_placeholder .., presStep_fail ..⟩
        · simp [placeholderItemData, patchToItemData, t4]
      · obtain ⟨i1, i2, i3, i4, i5, i6, i7⟩ := imageOriginalResult_ok_shape env d2 hio
        have hall := enqueueUpdates_comp env file s _ _ _ hs1
          (runStep_orig_image_ok env file _ d2 hft hio) (runStep_done ..)
        rw [hall]
        simp only [cacheWrites_append, cacheWrites_update, List.append_nil, List.singleton_append, List.cons_append, List.nil_append]
        constructor
        · simp only [List.chain'_cons, List.chain'_singleton, and_true]
          refine ⟨presStep_placeholder .., presStep_of_shapes _ _ _ w1iu w1ob w1vu w1ff ?_⟩
          intro hv
          simp [patchToItemData, i4, i5, i6]
        · simp [placeholderItemData, patchToItemData, t4, i2]
    · -- video file
      rcases hvo : videoOriginalResult env with e | d2
      · obtain ⟨⟩ := e
        have hall := enqueueUpdates_comp env file s _ _ _ hs1
          (runStep_orig_video_err env file _ hft hvo) (runStep_done ..)
        rw [hall]
        simp only [cacheWrites_append, cacheWrites_update, cacheWrites_markFailed,
          List.append_nil, List.singleton_append, List.cons_append, List.nil_append]
        rw [failPatch_eq file _ _ hget1]
        constructor
        · simp only [List.chain'_cons, List.chain'_singleton, and_true]
          exact ⟨presStep_placeholder .., presStep_fail ..⟩
        · simp [placeholderItemData, patchToItemData, t4]
      · obtain ⟨v1, v2, v3, v4, v5, v6, v7⟩ := videoOriginalResult_ok_shape env d2 hvo
        have hall := enqueueUpdates_comp env file s _ _ _ hs1
          (runStep_orig_video_ok env file _ d2 hft hvo) (runStep_done ..)
        rw [hall]
        simp only [cacheWrites_append, cacheWrites_update, List.append_nil, List.singleton_append, List.cons_append, List.nil_append]
        constructor
        · simp only [List.chain'_cons, List.chain'_singleton, and_true]
          refine ⟨presStep_placeholder .., presStep_of_shapes _ _ _ w1iu w1ob w1vu w1ff ?_⟩
          intro hv
          exact absurd rfl hv
        · simp [placeholderItemData, patchToItemData, t4, v6]
    · -- live photo
      rcases hlp : livePhotoImageResult env with e | dlp
      · obtain ⟨⟩ := e
        have hall := enqueueUpdates_comp env file s _ _ _ hs1
          (runStep_orig_live_err env file _ hft hlp) (runStep_done ..)
        rw [hall]
        simp only [cacheWrites_append, cacheWrites_update, cacheWrites_markFailed,
          List.append_nil, List.singleton_append, List.cons_append, List.nil_append]
        rw [failPatch_eq file _ _ hget1]
        constructor
        · simp only [List.chain'_cons, List.chain'_singleton, and_true]
          exact ⟨presStep_placeholder .., presStep_fail ..⟩
        · simp [placeholderItemData, patchToItemData, t4]
      · obtain ⟨l1, l2, l3, l4, l5, l6, l7⟩ := livePhotoImageResult_ok_shape env dlp hlp
        have hs2 := runStep_orig_live_ok env file
          (update file { td with isContentLoading := some true,
                                 isContentZoomable := some false } s).1 dlp hft hlp
        have hget2 : AMap.get (update file dlp.1 (update file
            { td with isContentLoading := some true,
                      isContentZoomable := some false } s).1).1.itemDataByFileID file.id =
            some (patchToItemData dlp.1 file.id file.metadata.fileType) := by
          rw [update_itemMap]
          simp
        rcases hv : dlp.2.video with e | vu
        · obtain ⟨⟩ := e
          have hall := enqueueUpdates_comp env file s _ _ _ hs1 hs2
            (runStep_lpv_err env file _ dlp.1 dlp.2 hv)
          rw [hall]
          simp only [cacheWrites_append, cacheWrites_update, cacheWrites_markFailed,
            List.append_nil, List.singleton_append, List.cons_append, List.nil_append]
          rw [failPatch_eq file _ _ hget2]
          constructor
          · simp only [List.chain'_cons, List.chain'_singleton, and_true]
            refine ⟨presStep_placeholder .., ?_, presStep_fail ..⟩
            refine presStep_of_shapes _ _ _ w1iu w1ob w1vu w1ff ?_
            intro hv2
            simp [patchToItemData, l4, l5, l6]
          · simp [placeholderItemData, patchToItemData, t4, l2]
        · have hall := enqueueUpdates_comp env file s _ _ _ hs1 hs2
            (runStep_lpv_ok env file _ dlp.1 dlp.2 vu hv)
          rw [hall]
          simp only [cacheWrites_append, cacheWrites_update, List.append_nil, List.singleton_append, List.cons_append, List.nil_append]
          constructor
          · simp only [List.chain'_cons, List.chain'_singleton, and_true]
            refine ⟨presStep_placeholder .., ?_, presStep_merge _ _ _ _ _ l1⟩
            refine presStep_of_shapes _ _ _ w1iu w1ob w1vu w1ff ?_
            intro hv2
            simp [patchToItemData, l4, l5, l6]
          · simp [placeholderItemData, patchToItemData, t4, l2]

end DataSource

namespace DataSource

/-- C1 (amended): within one pipeline run, starting from the loading
placeholder, every cache update preserves the previously present fields
`imageURL`, `originalImageBlob`, `videoURL` and `fetchFailed`, and also
preserves `src`, `width` and `height` unless the file is a video (whose
terminal update replaces the entry with just `videoURL`); the indicator
flags `isContentLoading` and `isContentZoomable` may be cleared by any
later update, not only on terminal success or failure. -/
theorem pipeline_monotone_amended (env : Env) (file : EnteFile) (s : DSState) :
    List.Chain' (presStep file.metadata.fileType)
      (placeholderItemData file.id file.metadata.fileType ::
        cacheWrites (enqueueUpdates env file s).2) :=
  (run_chain_both env file s).1

/-- C1 counterexample: for video file 7 the fully successful run first
commits the thumbnail fields `src`/`width`/`height` and then the terminal,
non-failing video update (`fetchFailed` unset) drops them (and drops
`isContentZoomable`), removing previously obtained fields other than
`isContentLoading`. -/
theorem pipeline_monotone_cex :
    cacheWrites (enqueueUpdates envVideoOk fileVideo7 stateVideoPlaceholder).2 =
      [{ fileID := 7, fileType := FileType.video, src := some "T",
         width := some 800, height := some 600,
         isContentLoading := some true, isContentZoomable := some false },
       { fileID := 7, fileType := FileType.video, videoURL := some "V" }] ∧
    ((cacheWrites (enqueueUpdates envVideoOk fileVideo7 stateVideoPlaceholder).2).getD 0
        (placeholderItemData 7 FileType.video)).src.isSome = true ∧
    ((cacheWrites (enqueueUpdates envVideoOk fileVideo7 stateVideoPlaceholder).2).getD 1
        (placeholderItemData 7 FileType.video)).src = none ∧
    ((cacheWrites (enqueueUpdates envVideoOk fileVideo7 stateVideoPlaceholder).2).getD 1
        (placeholderItemData 7 FileType.video)).fetchFailed ≠ some true := by
  decide

end DataSource

namespace DataSource

theorem itemDataForFile_started (file : EnteFile) (cb : Nat) (s : DSState) :
    (itemDataForFile file cb s).started =
      (AMap.get s.itemDataByFileID file.id).isNone := by
  unfold itemDataForFile
  cases AMap.get s.itemDataByFileID file.id <;> simp

theorem itemDataForFile_state_itemMap (file : EnteFile) (cb : Nat) (s : DSState) :
    (itemDataForFile file cb s).state.itemDataByFileID =
      if (AMap.get s.itemDataByFileID file.id).isSome = true
      then s.itemDataByFileID
      else AMap.set s.itemDataByFileID file.id
        (placeholderItemData file.id file.metadata.fileType) := by
  unfold itemDataForFile
  cases AMap.get s.itemDataByFileID file.id <;> simp

theorem update_presence (file : EnteFile) (p : ItemDataPatch) (s : DSState)
    (f : Nat) (h : (AMap.get s.itemDataByFileID f).isSome = true) :
    (AMap.get (update file p s).1.itemDataByFileID f).isSome = true := by
  rw [update_itemMap]
  exact AMap.isSome_get_set _ _ _ _ h

theorem markFailed_presence (file : EnteFile) (s : DSState) (f : Nat)
    (h : (AMap.get s.itemDataByFileID f).isSome = true) :
    (AMap.get (markFailed file s).1.itemDataByFileID f).isSome = true := by
  rw [markFailed_def]
  exact update_presence file _ s f h

theorem update_events_kinds (file : EnteFile) (p : ItemDataPatch) (s : DSState)
    (f : Nat) :
    Event.removed f ∉ (update file p s).2 ∧
    Event.pipelineStart f ∉ (update file p s).2 := by
  rw [update_events]
  cases AMap.get s.needsRefreshByFileID file.id <;> simp

theorem markFailed_events_kinds (file : EnteFile) (s : DSState) (f : Nat) :
    Event.removed f ∉ (markFailed file s).2 ∧
    Event.pipelineStart f ∉ (markFailed file s).2 := by
  rw [markFailed_def]
  exact update_events_kinds file _ s f

theorem runStep_presence (env : Env) (file : EnteFile) (ph : RunPhase)
    (s : DSState) (f : Nat)
    (h : (AMap.get s.itemDataByFileID f).isSome = true) :
    (AMap.get (runStep env file ph s).state.itemDataByFileID f).isSome = true := by
  cases ph with
  | thumbStage =>
      rcases hth : thumbnailResult env with e | td
      · obtain ⟨⟩ := e
        rw [runStep_thumb_err env file s hth]
        exact markFailed_presence file s f h
      · rw [runStep_thumb_ok env file s td hth]
        exact update_presence file _ s f h
  | originalStage =>
      rcases hft : file.metadata.fileType with _ | _ | _
      · rcases hio : imageOriginalResult env with e | d2
        · obtain ⟨⟩ := e
          rw [runStep_orig_image_err env file s hft hio]
          exact markFailed_presence file s f h
        · rw [runStep_orig_image_ok env file s d2 hft hio]
          exact update_presence file _ s f h
      · rcases hvo : videoOriginalResult env with e | d2
        · obtain ⟨⟩ := e
          rw [runStep_orig_video_err env file s hft hvo]
          exact markFailed_presence file s f h
        · rw [runStep_orig_video_ok env file s d2 hft hvo]
          exact update_presence file _ s f h
      · rcases hlp : livePhotoImageResult env with e | dlp
        · obtain ⟨⟩ := e
          rw [runStep_orig_live_err env file s hft hlp]
          exact markFailed_presence file s f h
        · rw [runStep_orig_live_ok env file s dlp hft hlp]
          exact update_presence file _ s f h
  | livePhotoVideoStage p bundle =>
      rcases hv : bundle.video with e | vu
      · obtain ⟨⟩ := e
        rw [runStep_lpv_err env file s p bundle hv]
        exact markFailed_presence file s f h
      · rw [runStep_lpv_ok env file s p bundle vu hv]
        exact update_presence file _ s f h
  | done =>
      rw [runStep_done]
      exact h

theorem runStep_events_kinds (env : Env) (file : EnteFile) (ph : RunPhase)
    (s : DSState) (f : Nat) :
    Event.removed f ∉ (runStep env file ph s).events ∧
    Event.pipelineStart f ∉ (runStep env file ph s).events := by
  cases ph with
  | thumbStage =>
      rcases hth : thumbnailResult env with e | td
      · obtain ⟨⟩ := e
        rw [runStep_thumb_err env file s hth]
        exact markFailed_events_kinds file s f
      · rw [runStep_thumb_ok env file s td hth]
        exact update_events_kinds file _ s f
  | originalStage =>
      rcases hft : file.metadata.fileType with _ | _ | _
      · rcases hio : imageOriginalResult env with e | d2
        · obtain ⟨⟩ := e
          rw [runStep_orig_image_err env file s hft hio]
          exact markFailed_events_kinds file s f
        · rw [runStep_orig_image_ok env file s d2 hft hio]
          exact update_events_kinds file _ s f
      · rcases hvo : videoOriginalResult env with e | d2
        · obtain ⟨⟩ := e
          rw [runStep_orig_video_err env file s hft hvo]
          exact markFailed_events_kinds file s f
        · rw [runStep_orig_video_ok env file s d2 hft hvo]
          exact update_events_kinds file _ s f
      · rcases hlp : livePhotoImageResult env with e | dlp
        · obtain ⟨⟩ := e
          rw [runStep_orig_live_err env file s hft hlp]
          exact markFailed_events_kinds file s f
        · rw [runStep_orig_live_ok env file s dlp hft hlp]
          exact update_events_kinds file _ s f
  | livePhotoVideoStage p bundle =>
      rcases hv : bundle.video with e | vu
      · obtain ⟨⟩ := e
        rw [runStep_lpv_err env file s p bundle hv]
        exact markFailed_events_kinds file s f
      · rw [runStep_lpv_ok env file s p bundle vu hv]
        exact update_events_kinds file _ s f
  | done =>
      rw [runStep_done]
      exact ⟨List.not_mem_nil _, List.not_mem_nil _⟩

theorem forgetFailed_preserve_one (fid : Nat) (s : DSState) (f : Nat)
    (hp : (AMap.get s.itemDataByFileID f).isSome = true)
    (hr : Event.removed f ∉ (forgetFailedItemDataForFileID fid s).2) :
    (AMap.get (forgetFailedItemDataForFileID fid s).1.itemDataByFileID f).isSome
      = true := by
  rcases hg : AMap.get s.itemDataByFileID fid with _ | d
  · have hstep : forgetFailedItemDataForFileID fid s = (s, []) := by
      unfold forgetFailedItemDataForFileID
      rw [hg]
    rw [hstep]
    exact hp
  · by_cases hf : d.fetchFailed = some true
    · have hstep : forgetFailedItemDataForFileID fid s =
          ({ s with itemDataByFileID := AMap.del s.itemDataByFileID fid },
           [Event.removed fid]) := by
        unfold forgetFailedItemDataForFileID
        rw [hg]
        simp [hf]
      rw [hstep] at hr ⊢
      have hne : f ≠ fid := by
        intro h
        subst h
        exact hr (by simp)
      simpa only [AMap.get_del_ne _ _ _ hne] using hp
    · have hstep : forgetFailedItemDataForFileID fid s = (s, []) := by
        unfold forgetFailedItemDataForFileID
        rw [hg]
        simp [hf]
      rw [hstep]
      exact hp

end DataSource

namespace DataSource

/-- The fold inside `forgetFailedItems` only appends to the accumulated
event list. -/
theorem forgetFold_events_prefix (ks : List Nat) (acc : DSState × List Event) :
    ∃ t, (ks.foldl (fun acc fid =>
        let r := forgetFailedItemDataForFileID fid acc.1
        (r.1, acc.2 ++ r.2)) acc).2 = acc.2 ++ t := by
  induction ks generalizing acc with
  | nil => exact ⟨[], by simp⟩
  | cons k ks ih =>
      simp only [List.foldl_cons]
      obtain ⟨t, ht⟩ := ih ((forgetFailedItemDataForFileID k acc.1).1,
        acc.2 ++ (forgetFailedItemDataForFileID k acc.1).2)
      exact ⟨(forgetFailedItemDataForFileID k acc.1).2 ++ t, by
        rw [ht]; simp⟩

theorem forgetFold_preserve (ks : List Nat) (acc : DSState × List Event) (f : Nat)
    (hp : (AMap.get acc.1.itemDataByFileID f).isSome = true)
    (hr : Event.removed f ∉ (ks.foldl (fun acc fid =>
        let r := forgetFailedItemDataForFileID fid acc.1
        (r.1, acc.2 ++ r.2)) acc).2) :
    (AMap.get (ks.foldl (fun acc fid =>
        let r := forgetFailedItemDataForFileID fid acc.1
        (r.1, acc.2 ++ r.2)) acc).1.itemDataByFileID f).isSome = true := by
  induction ks generalizing acc with
  | nil => exact hp
  | cons k ks ih =>
      simp only [List.foldl_cons] at hr ⊢
      have hstep : Event.removed f ∉ (forgetFailedItemDataForFileID k acc.1).2 := by
        intro hmem
        obtain ⟨t, ht⟩ := forgetFold_events_prefix ks
          ((forgetFailedItemDataForFileID k acc.1).1,
           acc.2 ++ (forgetFailedItemDataForFileID k acc.1).2)
        apply hr
        rw [ht]
        simp [hmem]
      exact ih ((forgetFailedItemDataForFileID k acc.1).1,
        acc.2 ++ (forgetFailedItemDataForFileID k acc.1).2)
        (forgetFailed_preserve_one k acc.1 f hp hstep) hr

/-- One system action preserves the presence of an entry (absent a removal
event for it) and starts no pipeline for a file whose entry is present. -/
theorem stepAct_preserve (a : Act) (sys : Sys) (f : Nat)
    (hp : entryPresent sys f = true)
    (hr : Event.removed f ∉ (stepAct a sys).2) :
    entryPresent (stepAct a sys).1 f = true ∧
    Event.pipelineStart f ∉ (stepAct a sys).2 := by
  cases a with
  | request file cb =>
      have hmap := itemDataForFile_state_itemMap file cb sys.st
      have hstarted := itemDataForFile_started file cb sys.st
      by_cases hst : (itemDataForFile file cb sys.st).started = true
      · have hstep : stepAct (Act.request file cb) sys =
            ({ st := (itemDataForFile file cb sys.st).state,
               runs := AMap.set sys.runs file.id (file, RunPhase.thumbStage) },
             [Event.pipelineStart file.id]) := by
          simp [stepAct, hst]
        have habs : (AMap.get sys.st.itemDataByFileID file.id).isSome = false := by
          rw [hstarted] at hst
          rcases hg : AMap.get sys.st.itemDataByFileID file.id with _ | d
          · rfl
          · rw [hg] at hst
            simp at hst
        have hne : file.id ≠ f := by
          intro h
          rw [h] at habs
          rw [entryPresent, habs] at hp
          exact Bool.noConfusion hp
        rw [hstep]
        constructor
        · show (AMap.get (itemDataForFile file cb sys.st).state.itemDataByFileID f).isSome = true
          rw [hmap, if_neg (by rw [habs]; exact Bool.noConfusion)]
          rw [AMap.get_set_ne _ _ _ _ (fun h => hne h.symm)]
          exact hp
        · intro hmem
          simp only [List.mem_singleton] at hmem
          exact hne (by injection hmem with h; exact h.symm)
      · simp only [Bool.not_eq_true] at hst
        have hstep : stepAct (Act.request file cb) sys =
            ({ sys with st := (itemDataForFile file cb sys.st).state }, []) := by
          simp [stepAct, hst]
        rw [hstep]
        refine ⟨?_, by simp⟩
        show (AMap.get (itemDataForFile file cb sys.st).state.itemDataByFileID f).isSome = true
        rw [hmap]
        rw [hstarted] at hst
        have hsome : (AMap.get sys.st.itemDataByFileID file.id).isSome = true := by
          rcases hg : AMap.get sys.st.itemDataByFileID file.id with _ | d
          · rw [hg] at hst
            simp at hst
          · rfl
        rw [if_pos hsome]
        exact hp
  | advance fid env =>
      rcases hg : AMap.get sys.runs fid with _ | fp
      · have hstep : stepAct (Act.advance fid env) sys = (sys, []) := by
          simp [stepAct, hg]
        rw [hstep]
        exact ⟨hp, by simp⟩
      · have hstep : stepAct (Act.advance fid env) sys =
            ({ st := (runStep env fp.1 fp.2 sys.st).state,
               runs := AMap.set sys.runs fid (fp.1, (runStep env fp.1 fp.2 sys.st).phase) },
             (runStep env fp.1 fp.2 sys.st).events) := by
          simp [stepAct, hg]
        rw [hstep]
        exact ⟨runStep_presence env fp.1 fp.2 sys.st f hp,
               (runStep_events_kinds env fp.1 fp.2 sys.st f).2⟩
  | forgetFailed fid =>
      have hstep : stepAct (Act.forgetFailed fid) sys =
          ({ sys with st := (forgetFailedItemDataForFileID fid sys.st).1 },
           (forgetFailedItemDataForFileID fid sys.st).2) := rfl
      rw [hstep] at hr ⊢
      constructor
      · exact forgetFailed_preserve_one fid sys.st f hp hr
      · intro hmem
        unfold forgetFailedItemDataForFileID at hmem
        rcases hg : AMap.get sys.st.itemDataByFileID fid with _ | d <;>
          rw [hg] at hmem
        · simp at hmem
        · by_cases hf : d.fetchFailed = some true
          · simp [hf] at hmem
          · simp [hf] at hmem
  | forgetAllFailed =>
      have hstep : stepAct Act.forgetAllFailed sys =
          ({ sys with st := (forgetFailedItems sys.st).1 },
           (forgetFailedItems sys.st).2) := rfl
      rw [hstep] at hr ⊢
      unfold forgetFailedItems at hr ⊢
      constructor
      · exact forgetFold_preserve _ _ f hp hr
      · intro hmem
        -- every event of the fold is a removal event; a pipeline start
        -- cannot be among them
        have haux : ∀ (ks : List Nat) (acc : DSState × List Event),
            (∀ e ∈ acc.2, ∃ g, e = Event.removed g) →
            ∀ e ∈ (ks.foldl (fun acc fid =>
              let r := forgetFailedItemDataForFileID fid acc.1
              (r.1, acc.2 ++ r.2)) acc).2, ∃ g, e = Event.removed g := by
          intro ks
          induction ks with
          | nil => intro acc hacc e he; exact hacc e he
          | cons k ks ih =>
              intro acc hacc e he
              simp only [List.foldl_cons] at he
              refine ih _ ?_ e he
              intro e2 he2
              rw [List.mem_append] at he2
              rcases he2 with h2 | h2
              · exact hacc e2 h2
              · unfold forgetFailedItemDataForFileID at h2
                rcases hg : AMap.get acc.1.itemDataByFileID k with _ | d <;>
                  rw [hg] at h2
                · simp at h2
                · by_cases hf : d.fetchFailed = some true
                  · simp [hf] at h2
                    exact ⟨k, h2⟩
                  · simp [hf] at h2
        obtain ⟨g, hgeq⟩ := haux _ (sys.st, []) (by simp) _ hmem
        exact Event.noConfusion hgeq
  | reset =>
      exfalso
      apply hr
      show Event.removed f ∈ (AMap.keys sys.st.itemDataByFileID).map Event.removed
      rw [List.mem_map]
      unfold entryPresent at hp
      rcases hg : AMap.get sys.st.itemDataByFileID f with _ | d
      · rw [hg] at hp
        exact Bool.noConfusion hp
      · exact ⟨f, AMap.mem_keys_of_get _ _ _ hg, rfl⟩

/-- Trace invariant: while an entry is present and no removal event for it
occurs, no pipeline start for it occurs, and the entry stays present. -/
theorem runActs_noStart (acts : List Act) (sys : Sys) (f : Nat)
    (hp : entryPresent sys f = true)
    (hr : Event.removed f ∉ (runActs acts sys).2) :
    Event.pipelineStart f ∉ (runActs acts sys).2 ∧
    entryPresent (runActs acts sys).1 f = true := by
  induction acts generalizing sys with
  | nil =>
      exact ⟨by simp [runActs], hp⟩
  | cons a rest ih =>
      have hsplit : (runActs (a :: rest) sys).2 =
          (stepAct a sys).2 ++ (runActs rest (stepAct a sys).1).2 := rfl
      have hstate : (runActs (a :: rest) sys).1 =
          (runActs rest (stepAct a sys).1).1 := rfl
      rw [hsplit] at hr ⊢
      rw [hstate]
      rw [List.mem_append] at hr
      have hr1 : Event.removed f ∉ (stepAct a sys).2 := fun h => hr (Or.inl h)
      have hr2 : Event.removed f ∉ (runActs rest (stepAct a sys).1).2 :=
        fun h => hr (Or.inr h)
      obtain ⟨hpres, hnostart⟩ := stepAct_preserve a sys f hp hr1
      obtain ⟨hns2, hp2⟩ := ih (stepAct a sys).1 hpres hr2
      refine ⟨?_, hp2⟩
      rw [List.mem_append]
      rintro (h | h)
      · exact hnostart h
      · exact hns2 h

end DataSource

namespace DataSource

/-- C2: a request while a cache entry exists starts no pipeline (whatever
other actions interleave, until that entry is removed no pipeline start
for it can occur), and a request with no entry synchronously inserts the
placeholder, registers the run, and emits exactly one pipeline start — so
exactly one run is triggered per file between successive removals. -/
theorem request_dedup :
    (∀ (sys : Sys) (acts : List Act) (f : Nat),
      entryPresent sys f = true →
      Event.removed f ∉ (runActs acts sys).2 →
      Event.pipelineStart f ∉ (runActs acts sys).2) ∧
    (∀ (sys : Sys) (file : EnteFile) (cb : Nat),
      entryPresent sys file.id = false →
      (stepAct (Act.request file cb) sys).2 = [Event.pipelineStart file.id] ∧
      entryPresent (stepAct (Act.request file cb) sys).1 file.id = true ∧
      AMap.get (stepAct (Act.request file cb) sys).1.st.itemDataByFileID file.id =
        some (placeholderItemData file.id file.metadata.fileType) ∧
      AMap.get (stepAct (Act.request file cb) sys).1.runs file.id =
        some (file, RunPhase.thumbStage)) := by
  constructor
  · intro sys acts f hp hr
    exact (runActs_noStart acts sys f hp hr).1
  · intro sys file cb habs
    have hstarted := itemDataForFile_started file cb sys.st
    have hmap := itemDataForFile_state_itemMap file cb sys.st
    have hnone : AMap.get sys.st.itemDataByFileID file.id = none := by
      unfold entryPresent at habs
      rcases hg : AMap.get sys.st.itemDataByFileID file.id with _ | d
      · rfl
      · rw [hg] at habs
        simp at habs
    have hst : (itemDataForFile file cb sys.st).started = true := by
      rw [hstarted, hnone]
      rfl
    have hstep : stepAct (Act.request file cb) sys =
        ({ st := (itemDataForFile file cb sys.st).state,
           runs := AMap.set sys.runs file.id (file, RunPhase.thumbStage) },
         [Event.pipelineStart file.id]) := by
      simp [stepAct, hst]
    rw [hstep]
    have hmap2 : (itemDataForFile file cb sys.st).state.itemDataByFileID =
        AMap.set sys.st.itemDataByFileID file.id
          (placeholderItemData file.id file.metadata.fileType) := by
      rw [hmap, if_neg (by rw [hnone]; exact Bool.noConfusion)]
    refine ⟨rfl, ?_, ?_, ?_⟩
    · show (AMap.get (itemDataForFile file cb sys.st).state.itemDataByFileID
        file.id).isSome = true
      rw [hmap2]
      simp
    · show AMap.get (itemDataForFile file cb sys.st).state.itemDataByFileID
        file.id = some (placeholderItemData file.id file.metadata.fileType)
      rw [hmap2]
      simp
    · simp

/-- C2 witness: with the placeholder for file 7 present, a repeated
request followed by a pipeline step emits no pipeline start; from an empty
system, a request emits exactly one start and leaves the placeholder. -/
theorem request_dedup_witness :
    Event.pipelineStart 7 ∉
      (runActs [Act.request fileVideo7 9, Act.advance 7 envVideoOk]
        sysPresent7).2 ∧
    (stepAct (Act.request fileVideo7 9) ⟨{}, []⟩).2 =
      [Event.pipelineStart 7] :=
  ⟨request_dedup.1 sysPresent7 [Act.request fileVideo7 9, Act.advance 7 envVideoOk]
      7 (by decide) (by decide),
   (request_dedup.2 ⟨{}, []⟩ fileVideo7 9 (by decide)).1⟩

/-- C4: once `fetchFailed` is set no further stage update occurs — within
any single run, a cache write carrying `fetchFailed` is never followed by
another cache write; and while a (failed or not) entry persists, no new
pipeline run starts for that file until a removal event for it occurs. -/
theorem fetchFailed_terminal :
    (∀ (env : Env) (file : EnteFile) (s : DSState),
      List.Chain' (fun d _ => d.fetchFailed ≠ some true)
        (cacheWrites (enqueueUpdates env file s).2)) ∧
    (∀ (sys : Sys) (acts : List Act) (f : Nat),
      entryPresent sys f = true →
      Event.removed f ∉ (runActs acts sys).2 →
      Event.pipelineStart f ∉ (runActs acts sys).2) := by
  constructor
  · intro env file s
    exact ((run_chain_both env file s).2).tail
  · intro sys acts f hp hr
    exact (runActs_noStart acts sys f hp hr).1

/-- C4 witness: the failed-image run's writes satisfy the chain, and with
an entry present no start event is emitted by further actions. -/
theorem fetchFailed_terminal_witness :
    List.Chain' (fun d _ => d.fetchFailed ≠ some true)
      (cacheWrites (enqueueUpdates envImageOrigFail fileImage3
        stateImage3Placeholder).2) ∧
    Event.pipelineStart 7 ∉
      (runActs [Act.forgetFailed 7, Act.advance 7 envVideoOk] sysPresent7).2 :=
  ⟨fetchFailed_terminal.1 envImageOrigFail fileImage3 stateImage3Placeholder,
   fetchFailed_terminal.2 sysPresent7 [Act.forgetFailed 7, Act.advance 7 envVideoOk]
      7 (by decide) (by decide)⟩

end DataSource
